import Mathlib

set_option maxRecDepth 1000000

/-!
Verification of the GF(256) arithmetic engine (`gf256_nosimd.cpp`).

Shallow embedding of the scalar GF(256) table builder and buffer primitives.
Machine integers are modelled as `Nat` (with explicit `% 256` where the C code
performs a narrowing cast); byte buffers are modelled as `List Nat` whose
length is the byte count `bytes` processed by the C loops; the process-wide
mutable context (`GF256Ctx`, `Initialized`) is modelled as explicit state
passed through `gf256_init_`.

Parts of the repository live in the header `gf256.h`, which is not part of
this source tree (the `GF256_VERSION` constant, the `gf256_div` inline
accessor, the layout of the context struct); where a definition depends on
them it is modelled from the spec and marked as such in its doc comment.
Line numbers in doc comments refer to `gf256_nosimd.cpp`.
-/

/-- The catalog of 16 generator polynomials, `GF256_GEN_POLY` (lines 43-46). -/
def GF256_GEN_POLY : List Nat :=
  [0x8e, 0x95, 0x96, 0xa6, 0xaf, 0xb1, 0xb2, 0xb4,
   0xb8, 0xc3, 0xc6, 0xd4, 0xe1, 0xe7, 0xf3, 0xfa]

/-- Size of the catalog, `GF256_GEN_POLY_COUNT` (line 42). -/
def GF256_GEN_POLY_COUNT : Int := 16

/-- Index of the polynomial selected at initialization,
`DefaultPolynomialIndex` (line 48). -/
def DefaultPolynomialIndex : Int := 3

/-- Polynomial selection, `gf255_poly_init` (lines 51-59).  The argument is a
C `int`, modelled as `Int`; an out-of-range index is replaced by 0
(lines 53-56).  The stored polynomial is `(GF256_GEN_POLY[idx] << 1) | 1`
(line 58), written here as `* 2 + 1` since the low bit of the shifted value
is 0. -/
def gf255_poly_init (polynomialIndex : Int) : Nat :=
  (GF256_GEN_POLY.getD
    (if polynomialIndex < 0 ∨ polynomialIndex ≥ GF256_GEN_POLY_COUNT then (0 : Int)
     else polynomialIndex).toNat 0) * 2 + 1

/-- The polynomial selected by `gf256_init_` (line 186):
`gf255_poly_init(DefaultPolynomialIndex)`. -/
def defaultPoly : Nat := gf255_poly_init DefaultPolynomialIndex

/-- One doubling step of the EXP-table recurrence (lines 76-77):
`next = prev * 2; if (next >= 256) next ^= poly`. -/
def expStep (poly prev : Nat) : Nat :=
  let next := prev * 2
  if next ≥ 256 then next ^^^ poly else next

/-- Core period of the EXP table built by the loop of `gf256_explog_init`
(lines 73-81): `exptab[0] = 1` and `exptab[jj] = expStep (exptab[jj-1])` for
`jj = 1..254`. -/
def expCore (poly : Nat) : Nat → Nat
  | 0 => 1
  | j + 1 => expStep poly (expCore poly j)

/-- The full EXP table of `gf256_explog_init` as a function of the index
(lines 73-96).  Every cell of the C array is written exactly once:
indices `0..254` by the main loop, index `255` aliased to `exptab[0]`
(line 83), indices `256..509` as periodic copies `exptab[jj % 255]`
(lines 86-89), index `510` set to 1 (line 91), and indices `511..1019`
zero-filled (lines 93-96). -/
def exptabF (poly j : Nat) : Nat :=
  if j < 255 then expCore poly j
  else if j = 255 then expCore poly 0
  else if j < 510 then expCore poly (j % 255)
  else if j = 510 then 1
  else 0

/-- The LOG table built by `gf256_explog_init` (lines 72-84), as the list of
its 256 entries.  The global context is zero-initialized static storage, so
the table starts as all zeros; then `logtab[0] = 512` (line 72), then
`logtab[exptab[jj]] = jj` for `jj = 1..254` (line 80), and finally
`logtab[exptab[255]] = 255` (line 84), which writes entry `exptab[255] = 1`. -/
def logtabList (poly : Nat) : List Nat :=
  ((List.range 254).foldl
    (fun l j => l.set (expCore poly (j + 1)) (j + 1))
    ((List.replicate 256 0).set 0 512)).set (exptabF poly 255) 255

/-- Lookup in the LOG table of `gf256_explog_init`. -/
def logtabF (poly j : Nat) : Nat := (logtabList poly).getD j 0

/-- Cell `(y, x)` of the MUL table built by `gf256_muldiv_init`
(lines 104-140), where `y` selects the 256-entry subtable (`m += 256` per
row) and `x` the entry inside it.  The `y = 0` subtable is zeroed
(lines 111-114); for `y ≥ 1` the entry at `x = 0` is zeroed (line 128) and
for `x ≥ 1` the entry is `EXP[log_x + log_y]` (line 136), where
`log_y = (uint8_t)LOG[y]` (line 120, hence the `% 256`) and
`log_x = LOG[x]` is the unnarrowed `uint16_t` (line 134). -/
def mulTableF (poly y x : Nat) : Nat :=
  if y = 0 then 0
  else if x = 0 then 0
  else exptabF poly (logtabF poly x + logtabF poly y % 256)

/-- Cell `(y, x)` of the DIV table built by `gf256_muldiv_init`
(lines 104-140): same layout as `mulTableF`, with
`log_yn = 255 - log_y` (line 121, a `uint8_t` subtraction that cannot
underflow since `log_y ≤ 255`) and entry `EXP[log_x + log_yn]` (line 137). -/
def divTableF (poly y x : Nat) : Nat :=
  if y = 0 then 0
  else if x = 0 then 0
  else exptabF poly (logtabF poly x + (255 - logtabF poly y % 256))

/-- Modelled from the spec: the inline accessor `gf256_div(x, y)` lives in the
missing header `gf256.h`; per the spec (section 4.1, "Build inverse table —
`inv[x] = div[x][1]`", and section 3, `div_table` maps "(divisor y,
dividend x) → quotient x/y"), it reads the DIV-table subtable of the divisor
`y` at the dividend `x`. -/
def gf256_div (poly x y : Nat) : Nat := divTableF poly y x

/-- The INV table built by `gf256_inv_init` (lines 147-153):
`INV_TABLE[x] = gf256_div(1, x)`. -/
def invTableF (poly x : Nat) : Nat := gf256_div poly 1 x

/-!
Buffer primitives.  Byte buffers are `List Nat`; each C primitive walks
exactly `bytes` bytes of every buffer involved, so a buffer is modelled as
the list of exactly those `bytes` bytes and `bytes` is the (common) list
length.
-/

/-- Bulk XOR accumulation, `gf256_add_mem` (lines 198-213): `x1[i] ^= y1[i]`
for each of the `bytes` positions. -/
def gf256_add_mem (vx vy : List Nat) : List Nat :=
  List.zipWith (fun a b => a ^^^ b) vx vy

/-- Scaled XOR accumulation, `gf256_muladd_mem` (lines 253-279): for `y ≤ 1`,
scalar 1 delegates to `gf256_add_mem` and scalar 0 returns with the
destination untouched (lines 257-264); otherwise
`z8[i] ^= MUL_TABLE[(y << 8) + x8[i]]`, i.e. the subtable-`y` lookup of
`x8[i]` (lines 268-278). -/
def gf256_muladd_mem (poly : Nat) (vz : List Nat) (y : Nat) (vx : List Nat) :
    List Nat :=
  if y ≤ 1 then
    if y = 1 then gf256_add_mem vz vx else vz
  else
    List.zipWith (fun z x => z ^^^ mulTableF poly y x) vz vx

/-- Scaled copy, `gf256_mul_mem` (lines 281-306): for `y ≤ 1`, scalar 0 runs
`memset(vz, 0, bytes)` and scalar 1 returns with the destination untouched
(lines 284-291); otherwise `z8[i] = MUL_TABLE[(y << 8) + x8[i]]`
(lines 295-305). -/
def gf256_mul_mem (poly : Nat) (vz vx : List Nat) (y : Nat) : List Nat :=
  if y ≤ 1 then
    if y = 0 then List.replicate vz.length 0 else vz
  else
    vx.map (fun x => mulTableF poly y x)

/-!
Initialization state machine.  `GF256Ctx` (a zero-initialized global,
line 34) and `Initialized` (line 35) are the process-wide state.  The tables
are materialized as lists laid out as in the C struct.  `IsLittleEndian`
(lines 160-163) reinterprets the bytes of a static array, which a shallow
embedding cannot observe; the byte order of the host is therefore a boolean
parameter of the step function.
-/

/-- The GF(256) context struct, `gf256_ctx` (declared in the missing header;
its five tables and the `Polynomial` field are the ones the builders in this
file write). -/
structure Gf256Ctx where
  Polynomial : Nat
  GF256_MUL_TABLE : List Nat
  GF256_DIV_TABLE : List Nat
  GF256_INV_TABLE : List Nat
  GF256_EXP_TABLE : List Nat
  GF256_LOG_TABLE : List Nat
deriving DecidableEq

/-- The zero-initialized global `GF256Ctx` (line 34), before any table is
built.  Array extents follow the spec's description of the struct: 256x256
MUL/DIV tables, 256-entry INV and LOG tables, and a 1021-entry EXP table
(indices up to `4*255 - 1` are written, plus one extra cell). -/
def zeroCtx : Gf256Ctx where
  Polynomial := 0
  GF256_MUL_TABLE := List.replicate (256 * 256) 0
  GF256_DIV_TABLE := List.replicate (256 * 256) 0
  GF256_INV_TABLE := List.replicate 256 0
  GF256_EXP_TABLE := List.replicate 1021 0
  GF256_LOG_TABLE := List.replicate 256 0

/-- The context after `gf255_poly_init(DefaultPolynomialIndex)`,
`gf256_explog_init()`, `gf256_muldiv_init()` and `gf256_inv_init()`
(lines 186-189) have run: every table cell the builders write, laid out flat
(MUL/DIV cell `(y, x)` at offset `y*256 + x`).  The EXP table's last cell
(index 1020) is never written and keeps its zero initialization. -/
def builtCtx : Gf256Ctx where
  Polynomial := defaultPoly
  GF256_MUL_TABLE :=
    (List.range (256 * 256)).map (fun i => mulTableF defaultPoly (i / 256) (i % 256))
  GF256_DIV_TABLE :=
    (List.range (256 * 256)).map (fun i => divTableF defaultPoly (i / 256) (i % 256))
  GF256_INV_TABLE := (List.range 256).map (invTableF defaultPoly)
  GF256_EXP_TABLE := (List.range 1020).map (exptabF defaultPoly) ++ [0]
  GF256_LOG_TABLE := logtabList defaultPoly

/-- Process state: the `Initialized` flag (line 35) and the global context. -/
structure GfState where
  Initialized : Bool
  ctx : Gf256Ctx
deriving DecidableEq

/-- Modelled from the spec: `GF256_VERSION` is a compile-time constant of the
missing header `gf256.h` ("Implicit compile-time constant: the engine's
version identifier", spec section 6).  Its concrete value is immaterial:
every claim depends only on whether the caller's argument matches it. -/
def GF256_VERSION : Int := 2

/-- The initialization entry point `gf256_init_` (lines 165-192), returning
the C status code and the new process state.  `isLittleEndian` is the
(host-fixed) outcome of the `IsLittleEndian()` check.  The version check
(lines 167-171) precedes the `Initialized` fast path (lines 174-177), and
`Initialized = true` (line 178) is set before the byte-order check
(lines 180-184), so both the `-2` failure path and the success path leave
the flag set; only the success path builds the tables (lines 186-189). -/
def gf256_init_ (isLittleEndian : Bool) (version : Int) (s : GfState) :
    Int × GfState :=
  if version ≠ GF256_VERSION then
    (-1, s)
  else if s.Initialized then
    (0, s)
  else if !isLittleEndian then
    (-2, { s with Initialized := true })
  else
    (0, { s with Initialized := true, ctx := builtCtx })

/-!
Helper lemmas shared by the claim theorems.
-/

/-- Every LOG-table entry of a nonzero byte lies below 256 (it is in
`1..255`), so the `uint8_t` narrowing `(uint8_t)GF256_LOG_TABLE[y]` in
`gf256_muldiv_init` does not change it. -/
theorem logtabF_lt_256 : ∀ y, y < 256 → 0 < y → logtabF defaultPoly y < 256 := by
  decide

/-!
Claim theorems.
-/

/-- C1 (counterexample): the claimed invariant
`log_table[exp_table[k mod 255]] == k mod 255` fails at `k = 0`:
`exp_table[0] = 1` but `log_table[1] = 255`, because the closing write
`logtab[exptab[255]] = 255` (line 84) overwrites the entry recorded for
exponent 0. -/
theorem log_exp_roundtrip_fails_at_zero :
    ¬ logtabF defaultPoly (exptabF defaultPoly (0 % 255)) = 0 % 255 := by
  decide

/-- C1 (amended): after table construction,
`log_table[exp_table[k mod 255]] == k mod 255` holds for every `k` in
`1..254`; at `k = 0` the stored value is `log_table[exp_table[0]] =
log_table[1] = 255`, which is congruent to 0 modulo 255 but not equal
to it. -/
theorem log_exp_roundtrip :
    (∀ k, k < 255 → 0 < k →
      logtabF defaultPoly (exptabF defaultPoly (k % 255)) = k % 255) ∧
    logtabF defaultPoly (exptabF defaultPoly (0 % 255)) = 255 := by
  decide

/-- Witness for `log_exp_roundtrip` at `k = 7`. -/
theorem log_exp_roundtrip_witness :
    logtabF defaultPoly (exptabF defaultPoly (7 % 255)) = 7 % 255 :=
  log_exp_roundtrip.1 7 (by decide) (by decide)

/-- C2: after successful initialization, for every nonzero byte `x`,
`mul_table[inv_table[x]][x] == 1`; and `inv_table[0]` equals the value
stored at `div_table[0][1]`, which is 0. -/
theorem inv_table_property :
    (∀ x, x < 256 → 0 < x →
      mulTableF defaultPoly (invTableF defaultPoly x) x = 1) ∧
    invTableF defaultPoly 0 = divTableF defaultPoly 0 1 ∧
    divTableF defaultPoly 0 1 = 0 := by
  decide

/-- Witness for `inv_table_property` at `x = 7`. -/
theorem inv_table_property_witness :
    mulTableF defaultPoly (invTableF defaultPoly 7) 7 = 1 :=
  inv_table_property.1 7 (by decide) (by decide)

/-- C3: after table construction, `mul_table[y][x] == mul_table[x][y]` for
all bytes `x` and `y`, and `mul_table[y][0] == 0` for all `y`. -/
theorem mul_table_comm_and_zero : ∀ x, x < 256 → ∀ y, y < 256 →
    mulTableF defaultPoly y x = mulTableF defaultPoly x y ∧
    mulTableF defaultPoly y 0 = 0 := by
  intro x hx y hy
  refine ⟨?_, by simp [mulTableF]⟩
  by_cases hx0 : x = 0
  · simp [mulTableF, hx0]
  · by_cases hy0 : y = 0
    · simp [mulTableF, hy0]
    · have hxl := logtabF_lt_256 x hx (Nat.pos_of_ne_zero hx0)
      have hyl := logtabF_lt_256 y hy (Nat.pos_of_ne_zero hy0)
      simp only [mulTableF, if_neg hx0, if_neg hy0]
      rw [Nat.mod_eq_of_lt hxl, Nat.mod_eq_of_lt hyl, Nat.add_comm]

/-- Witness for `mul_table_comm_and_zero` at `x = 3`, `y = 5`. -/
theorem mul_table_comm_and_zero_witness :
    mulTableF defaultPoly 5 3 = mulTableF defaultPoly 3 5 ∧
    mulTableF defaultPoly 5 0 = 0 :=
  mul_table_comm_and_zero 3 (by decide) 5 (by decide)

/-- C4: for every buffer (of any length `n ≥ 0`, the list length) and every
source buffer, `gf256_mul_mem` with scalar 0 sets all `n` destination bytes
to zero, and with scalar 1 returns with the destination unchanged (prior
contents retained, the source is not copied). -/
theorem mul_mem_scalar_zero_one : ∀ vz vx : List Nat,
    gf256_mul_mem defaultPoly vz vx 0 = List.replicate vz.length 0 ∧
    gf256_mul_mem defaultPoly vz vx 1 = vz :=
  fun _ _ => ⟨rfl, rfl⟩

/-- C5: for every buffer length, `gf256_muladd_mem` with scalar 0 leaves the
destination unchanged, and with scalar 1 produces exactly the contents of
`gf256_add_mem` on the same destination and source. -/
theorem muladd_mem_scalar_zero_one : ∀ vz vx : List Nat,
    gf256_muladd_mem defaultPoly vz 0 vx = vz ∧
    gf256_muladd_mem defaultPoly vz 1 vx = gf256_add_mem vz vx :=
  fun _ _ => ⟨rfl, rfl⟩

/-- C6: if `gf256_init_` is called with a version identifier different from
the compiled-in `GF256_VERSION`, it returns the distinct version-mismatch
status `-1` and the process state — the `Initialized` flag and the whole
field context — is unchanged, whatever that state is (so regardless of
whether initialization previously succeeded) and on either byte order. -/
theorem init_version_mismatch : ∀ (le : Bool) (v : Int) (s : GfState),
    v ≠ GF256_VERSION → gf256_init_ le v s = (-1, s) := by
  intro le v s h
  unfold gf256_init_
  rw [if_pos h]

/-- Witness for `init_version_mismatch` with version 0 on the fresh state. -/
theorem init_version_mismatch_witness :
    gf256_init_ true 0 { Initialized := false, ctx := zeroCtx } =
      (-1, { Initialized := false, ctx := zeroCtx }) :=
  init_version_mismatch true 0 { Initialized := false, ctx := zeroCtx }
    (by decide)

/-- C7: if initialization has already completed successfully (a call with
the correct version returned status 0 producing state `s1`), a repeated call
with the correct version returns success and leaves the state — every table
bit-for-bit — identical. -/
theorem init_idempotent : ∀ (le : Bool) (s s1 : GfState),
    gf256_init_ le GF256_VERSION s = (0, s1) →
    gf256_init_ le GF256_VERSION s1 = (0, s1) := by
  intro le s s1 h
  have hv : ¬ (GF256_VERSION ≠ GF256_VERSION) := fun hc => hc rfl
  have hs1 : s1.Initialized = true := by
    unfold gf256_init_ at h
    rw [if_neg hv] at h
    by_cases hI : s.Initialized = true
    · rw [if_pos hI] at h
      injection h with h1 h2
      rw [← h2]
      exact hI
    · rw [if_neg hI] at h
      cases le
      · rw [if_pos (show (!false) = true from rfl)] at h
        injection h with h1 h2
        exact absurd h1 (by decide)
      · rw [if_neg (by decide)] at h
        injection h with h1 h2
        rw [← h2]
  unfold gf256_init_
  rw [if_neg hv, if_pos hs1]

/-- Witness for `init_idempotent`: a successful first call from the fresh
state, followed by a second call on the resulting state. -/
theorem init_idempotent_witness :
    gf256_init_ true GF256_VERSION { Initialized := true, ctx := builtCtx } =
      (0, { Initialized := true, ctx := builtCtx }) :=
  init_idempotent true { Initialized := false, ctx := zeroCtx }
    { Initialized := true, ctx := builtCtx } rfl

/-- C8: for every index in `0..15` the selected polynomial is the catalog
entry at that index shifted left by one bit with the low bit set to 1; for
every out-of-range index (negative or at least 16) the catalog entry at
index 0 is silently substituted, with no error. -/
theorem poly_selection :
    (∀ i : Nat, i < 16 →
      gf255_poly_init (i : Int) = ((GF256_GEN_POLY.getD i 0) <<< 1) ||| 1) ∧
    (∀ i : Int, i < 0 ∨ 16 ≤ i →
      gf255_poly_init i = ((GF256_GEN_POLY.getD 0 0) <<< 1) ||| 1) := by
  constructor
  · decide
  · intro i hi
    unfold gf255_poly_init
    rw [if_pos (show i < 0 ∨ i ≥ GF256_GEN_POLY_COUNT from hi)]
    decide

/-- Witness for `poly_selection` at in-range index 3 and out-of-range
indices -1 and 16. -/
theorem poly_selection_witness :
    gf255_poly_init ((3 : Nat) : Int) = ((GF256_GEN_POLY.getD 3 0) <<< 1) ||| 1 ∧
    gf255_poly_init (-1) = ((GF256_GEN_POLY.getD 0 0) <<< 1) ||| 1 ∧
    gf255_poly_init 16 = ((GF256_GEN_POLY.getD 0 0) <<< 1) ||| 1 :=
  ⟨poly_selection.1 3 (by decide),
   poly_selection.2 (-1) (Or.inl (by decide)),
   poly_selection.2 16 (Or.inr (by decide))⟩

/-- C9: with the tables of the default polynomial,
`gf256_mul_mem(dst = [0x00], src = [0x53], y = 0x02, bytes = 1)` produces a
destination whose byte is the field double of `0x53` — the value obtained by
doubling `0x53` and reducing by XOR with the polynomial on overflow, exactly
the `expStep` rule used by the EXP-table construction — namely `0xa6`. -/
theorem mul_mem_field_double :
    gf256_mul_mem defaultPoly [0x00] [0x53] 2 = [expStep defaultPoly 0x53] ∧
    expStep defaultPoly 0x53 = 0xa6 := by
  decide

/-- C10: if the first call to `gf256_init_` runs on a big-endian host with
the matching version from an uninitialized state, it fails with the
unsupported-byte-order status `-2` and builds no tables (the field context
is unchanged) — yet every subsequent call with the matching version returns
the success status 0 and still builds nothing, because the `Initialized`
flag is set before the byte-order check runs. -/
theorem init_endian_failure_sticky : ∀ s : GfState, s.Initialized = false →
    (gf256_init_ false GF256_VERSION s).1 = -2 ∧
    ((gf256_init_ false GF256_VERSION s).2).ctx = s.ctx ∧
    gf256_init_ false GF256_VERSION ((gf256_init_ false GF256_VERSION s).2) =
      (0, (gf256_init_ false GF256_VERSION s).2) := by
  intro s h
  have hv : ¬ (GF256_VERSION ≠ GF256_VERSION) := fun hc => hc rfl
  have h1 : gf256_init_ false GF256_VERSION s =
      (-2, { s with Initialized := true }) := by
    unfold gf256_init_
    rw [if_neg hv, if_neg (by simp [h]), if_pos (show (!false) = true from rfl)]
  rw [h1]
  refine ⟨rfl, rfl, ?_⟩
  unfold gf256_init_
  rw [if_neg hv, if_pos rfl]

/-- Witness for `init_endian_failure_sticky` on the fresh state. -/
theorem init_endian_failure_sticky_witness :
    (gf256_init_ false GF256_VERSION { Initialized := false, ctx := zeroCtx }).1 = -2 ∧
    ((gf256_init_ false GF256_VERSION { Initialized := false, ctx := zeroCtx }).2).ctx =
      zeroCtx ∧
    gf256_init_ false GF256_VERSION
        ((gf256_init_ false GF256_VERSION { Initialized := false, ctx := zeroCtx }).2) =
      (0, (gf256_init_ false GF256_VERSION { Initialized := false, ctx := zeroCtx }).2) :=
  init_endian_failure_sticky { Initialized := false, ctx := zeroCtx } rfl
